import Mathlib

/-!
Verification of the football-match analytics dashboard (`app.py`).

The match table is embedded as a list of records whose fields mirror the
columns used by the callbacks: `Date` (already parsed; rows with unparseable
dates are dropped at load, so every retained record carries a valid date,
modelled as a `Nat` timestamp), `Home Team`, `Away Team`, `Home Goals`,
`Away Goals`, `Tournament`, and the raw CSV columns `Winning Team` /
`Losing Team` (nullable, used only to derive the `IsDraw` flag).

Derived columns (`Winner`, `IsDraw`, `IsHomeWin`, `IsAwayWin`) are embedded as
pure functions of a record; since records are immutable this is observationally
the same as the precomputed dataframe columns built once at load time.
-/

structure MatchRow where
  date : Nat
  homeTeam : String
  awayTeam : String
  homeGoals : Nat
  awayGoals : Nat
  tournament : String
  winningTeam : Option String
  losingTeam : Option String
deriving DecidableEq, Repr

/-- `df['Winner']`: the home team's name if it scored more goals, the away
team's name if it scored more, else the string `"Draw"` (app.py line 33). -/
def winner (r : MatchRow) : String :=
  if r.homeGoals > r.awayGoals then r.homeTeam
  else if r.awayGoals > r.homeGoals then r.awayTeam
  else "Draw"

/-- `df['IsDraw']`: both raw CSV columns `Winning Team` and `Losing Team`
are null (app.py line 32). -/
def isDraw (r : MatchRow) : Bool :=
  r.winningTeam.isNone && r.losingTeam.isNone

/-- `df['IsHomeWin']`: the derived winner equals the home team (line 34). -/
def isHomeWin (r : MatchRow) : Bool :=
  winner r == r.homeTeam

/-- `df['IsAwayWin']`: the derived winner equals the away team (line 35). -/
def isAwayWin (r : MatchRow) : Bool :=
  winner r == r.awayTeam

/-- The spec's abstract outcome labels for a match. -/
inductive Outcome where
  | HomeWin : Outcome
  | AwayWin : Outcome
  | Draw : Outcome
deriving DecidableEq, Repr

/-- The spec's outcome derivation: a pure function of the two goal counts. -/
def outcomeOf (hg ag : Nat) : Outcome :=
  if hg > ag then Outcome.HomeWin
  else if ag > hg then Outcome.AwayWin
  else Outcome.Draw

/-- Rendering of an abstract outcome back into the `Winner` string of a
concrete record. -/
def outcomeString (r : MatchRow) : Outcome → String
  | Outcome.HomeWin => r.homeTeam
  | Outcome.AwayWin => r.awayTeam
  | Outcome.Draw => "Draw"

/-- C8: for every retained record the derived `Winner` value realises exactly
the outcome `HomeWin` when `homeGoals > awayGoals`, `AwayWin` when
`awayGoals > homeGoals`, and `Draw` otherwise, and the outcome is a pure
function of the two goal counts alone (so recomputing it from the same goals
always yields the same label; the dataframe stores it once at load). -/
theorem claim_C8_outcome_derivation (r : MatchRow) :
    winner r = outcomeString r (outcomeOf r.homeGoals r.awayGoals) ∧
    (outcomeOf r.homeGoals r.awayGoals = Outcome.HomeWin ↔ r.homeGoals > r.awayGoals) ∧
    (outcomeOf r.homeGoals r.awayGoals = Outcome.AwayWin ↔ r.awayGoals > r.homeGoals) ∧
    (outcomeOf r.homeGoals r.awayGoals = Outcome.Draw ↔ r.homeGoals = r.awayGoals) := by
  unfold winner outcomeOf outcomeString
  rcases Nat.lt_trichotomy r.homeGoals r.awayGoals with h | h | h
  · have h' : ¬ r.homeGoals > r.awayGoals := by omega
    simp only [h', if_false, if_pos h]
    refine ⟨by simp, ?_, ?_, ?_⟩ <;> simp <;> omega
  · have h1 : ¬ r.homeGoals > r.awayGoals := by omega
    have h2 : ¬ r.awayGoals > r.homeGoals := by omega
    simp only [h1, h2, if_false]
    refine ⟨by simp, ?_, ?_, ?_⟩ <;> simp <;> omega
  · simp only [if_pos h]
    refine ⟨by simp, ?_, ?_, ?_⟩ <;> simp <;> omega

/-! ### Shared helper lemmas about the derived winner -/

lemma winner_of_home_gt (r : MatchRow) (h : r.awayGoals < r.homeGoals) :
    winner r = r.homeTeam := by
  unfold winner
  simp [Nat.lt_of_le_of_lt (Nat.zero_le _) h, h]

lemma winner_of_away_gt (r : MatchRow) (h : r.homeGoals < r.awayGoals) :
    winner r = r.awayTeam := by
  unfold winner
  have h1 : ¬ r.homeGoals > r.awayGoals := by omega
  simp [h1, h]

lemma winner_of_draw (r : MatchRow) (h : r.homeGoals = r.awayGoals) :
    winner r = "Draw" := by
  unfold winner
  have h1 : ¬ r.homeGoals > r.awayGoals := by omega
  have h2 : ¬ r.awayGoals > r.homeGoals := by omega
  simp [h1, h2]

lemma winner_cases (r : MatchRow) :
    winner r = r.homeTeam ∨ winner r = r.awayTeam ∨ winner r = "Draw" := by
  unfold winner
  split_ifs <;> simp

lemma outcomeOf_eq_draw_iff (hg ag : Nat) :
    outcomeOf hg ag = Outcome.Draw ↔ hg = ag := by
  unfold outcomeOf
  split_ifs <;> simp <;> omega

/-- if exactly one predicate of `ps` holds on every element of `l`, the filtered
lengths over `ps` sum to the length of `l`. -/
lemma partition_count {α : Type} (ps : List (α → Bool)) (l : List α)
    (h : ∀ r ∈ l, ps.countP (fun p => p r) = 1) :
    (ps.map (fun p => (l.filter p).length)).sum = l.length := by
  induction l with
  | nil => simp
  | cons hd tl ih =>
    have h1 := h hd (by simp)
    have h2 := ih (fun r hr => h r (by simp [hr]))
    have step : ∀ qs : List (α → Bool),
        (qs.map (fun p => (List.filter p (hd :: tl)).length)).sum
          = qs.countP (fun p => p hd) + (qs.map (fun p => (List.filter p tl).length)).sum := by
      intro qs
      induction qs with
      | nil => simp
      | cons q qs' ihq =>
        rw [List.map_cons, List.sum_cons, List.map_cons, List.sum_cons,
          List.countP_cons, ihq]
        cases hq : q hd <;> simp [List.filter_cons, hq] <;> ring
    rw [step, h1, h2]
    simp [Nat.add_comm]

/-! ### Perspective tally (`get_result` in `update_win_rate_graph`) -/

/-- Perspective result labels used by the win-rate view. -/
inductive Res where
  | Win : Res
  | Draw : Res
  | Loss : Res
deriving DecidableEq, Repr

/-- `get_result` (app.py lines 359-366): draw when the raw `IsDraw` flag is
set, else win when the selected country is on the winning side, else loss. -/
def get_result (country : String) (r : MatchRow) : Res :=
  if isDraw r then Res.Draw
  else if (r.homeTeam == country && isHomeWin r) || (r.awayTeam == country && isAwayWin r) then
    Res.Win
  else Res.Loss

/-- number of records of a subset classified as a given perspective result. -/
def resultCount (country : String) (res : Res) (subset : List MatchRow) : Nat :=
  (subset.filter (fun r => get_result country r == res)).length

/-- The classification stated by the spec (§4.3): draw when the goal-derived
outcome is `Draw`, win when the participant is on the winning side of the
goal-derived outcome, else loss. -/
def specResult (country : String) (r : MatchRow) : Res :=
  if outcomeOf r.homeGoals r.awayGoals = Outcome.Draw then Res.Draw
  else if (r.homeTeam = country ∧ outcomeOf r.homeGoals r.awayGoals = Outcome.HomeWin)
      ∨ (r.awayTeam = country ∧ outcomeOf r.homeGoals r.awayGoals = Outcome.AwayWin) then
    Res.Win
  else Res.Loss

lemma get_result_exactly_one (country : String) (r : MatchRow) :
    ([fun r => get_result country r == Res.Win,
      fun r => get_result country r == Res.Draw,
      fun r => get_result country r == Res.Loss] :
        List (MatchRow → Bool)).countP (fun p => p r) = 1 := by
  cases h : get_result country r <;> simp [List.countP_cons, h]

/-- `get_result` agrees with the spec classification on any record whose raw
draw flag is consistent with its goal counts. -/
lemma get_result_eq_specResult (country : String) (r : MatchRow)
    (hc : isDraw r = true ↔ r.homeGoals = r.awayGoals) :
    get_result country r = specResult country r := by
  unfold get_result specResult
  by_cases hd : isDraw r
  · have he : r.homeGoals = r.awayGoals := hc.mp hd
    have ho : outcomeOf r.homeGoals r.awayGoals = Outcome.Draw :=
      (outcomeOf_eq_draw_iff _ _).mpr he
    simp [hd, ho]
  · have hne : r.homeGoals ≠ r.awayGoals := fun he => hd (hc.mpr he)
    have hno : outcomeOf r.homeGoals r.awayGoals ≠ Outcome.Draw :=
      fun h => hne ((outcomeOf_eq_draw_iff _ _).mp h)
    rw [if_neg hd, if_neg hno]
    rcases Nat.lt_trichotomy r.homeGoals r.awayGoals with hlt | heq | hgt
    · have hw := winner_of_away_gt r hlt
      have hout : outcomeOf r.homeGoals r.awayGoals = Outcome.AwayWin := by
        unfold outcomeOf
        have h1 : ¬ r.homeGoals > r.awayGoals := by omega
        simp [h1, hlt]
      have hnh : outcomeOf r.homeGoals r.awayGoals ≠ Outcome.HomeWin := by simp [hout]
      by_cases hac : r.awayTeam = country
      · simp [isHomeWin, isAwayWin, hw, hout, hac]
      · simp only [isHomeWin, isAwayWin, hw, hout]
        by_cases hhc : r.homeTeam = country
        · -- home side selected but away side won; a win is possible only in the
          -- degenerate case where both sides carry the same name
          by_cases hsame : r.awayTeam = r.homeTeam
          · exact absurd (hsame.trans hhc) hac
          · simp [hhc, hac, hsame]
        · simp [hhc, hac]
    · exact absurd heq hne
    · have hw := winner_of_home_gt r hgt
      have hout : outcomeOf r.homeGoals r.awayGoals = Outcome.HomeWin := by
        unfold outcomeOf
        simp [hgt]
      by_cases hhc : r.homeTeam = country
      · simp [isHomeWin, isAwayWin, hw, hout, hhc]
      · simp only [isHomeWin, isAwayWin, hw, hout]
        by_cases hac : r.awayTeam = country
        · by_cases hsame : r.homeTeam = r.awayTeam
          · exact absurd (hsame.trans hac) hhc
          · have hsame' : r.awayTeam ≠ r.homeTeam := fun h => hsame h.symm
            simp [hhc, hac, hsame, hsame']
        · simp [hhc, hac]

/-- C4 (amended): the perspective tally classifies every record as exactly one
of win, draw, loss, so the three counts always sum to the subset size; the
win/draw/loss frame matches the spec's goal-derived classification on every
record whose raw `IsDraw` flag (nullity of the `Winning Team` / `Losing Team`
CSV columns) is consistent with equality of its goal counts. -/
theorem claim_C4_perspective_tally (country : String) (subset : List MatchRow) :
    resultCount country Res.Win subset + resultCount country Res.Draw subset +
      resultCount country Res.Loss subset = subset.length ∧
    (∀ r : MatchRow, (isDraw r = true ↔ r.homeGoals = r.awayGoals) →
      get_result country r = specResult country r) := by
  constructor
  · have h := partition_count
      ([fun r => get_result country r == Res.Win,
        fun r => get_result country r == Res.Draw,
        fun r => get_result country r == Res.Loss] : List (MatchRow → Bool))
      subset (fun r _ => get_result_exactly_one country r)
    simpa [resultCount, Nat.add_assoc] using h
  · exact fun r hc => get_result_eq_specResult country r hc

/-- C4 counterexample: a record whose `Winning Team` / `Losing Team` columns
are both null but whose goals are 2-1 is classified `Draw` by `get_result`
even though the selected country is the home side of a goal-derived home win,
contradicting the claim's goal-derived draw clause. -/
theorem claim_C4_counterexample :
    get_result "X" ⟨0, "X", "Y", 2, 1, "T", none, none⟩ = Res.Draw ∧
    outcomeOf 2 1 = Outcome.HomeWin ∧
    specResult "X" ⟨0, "X", "Y", 2, 1, "T", none, none⟩ = Res.Win := by
  decide

/-- Witness for C4: concrete evaluation of the amended theorem. -/
theorem claim_C4_witness :
    resultCount "A" Res.Win [(⟨0, "A", "B", 2, 1, "T", some "A", some "B"⟩ : MatchRow)] +
      resultCount "A" Res.Draw [(⟨0, "A", "B", 2, 1, "T", some "A", some "B"⟩ : MatchRow)] +
      resultCount "A" Res.Loss [(⟨0, "A", "B", 2, 1, "T", some "A", some "B"⟩ : MatchRow)] = 1 ∧
    get_result "A" ⟨0, "A", "B", 2, 1, "T", some "A", some "B"⟩ =
      specResult "A" ⟨0, "A", "B", 2, 1, "T", some "A", some "B"⟩ :=
  ⟨(claim_C4_perspective_tally "A"
      [(⟨0, "A", "B", 2, 1, "T", some "A", some "B"⟩ : MatchRow)]).1,
   (claim_C4_perspective_tally "A"
      [(⟨0, "A", "B", 2, 1, "T", some "A", some "B"⟩ : MatchRow)]).2
     ⟨0, "A", "B", 2, 1, "T", some "A", some "B"⟩ (by decide)⟩

/-! ### Home/away and win-rate percentage computations -/

/-- `comp_df = df[df['Tournament'] != 'Friendly']` (app.py line 615). -/
def compMatches (rows : List MatchRow) : List MatchRow :=
  rows.filter (fun r => r.tournament != "Friendly")

/-- The home-side subset of `update_home_away_graph` (lines 618-624): all
competitive matches for the `Overall` sentinel, else the competitive matches
where the selected country is the home side. -/
def homeSubsetFor (opt : String) (rows : List MatchRow) : List MatchRow :=
  if opt = "Overall" then compMatches rows
  else (compMatches rows).filter (fun r => r.homeTeam == opt)

/-- The away-side subset of `update_home_away_graph` (lines 618-624). -/
def awaySubsetFor (opt : String) (rows : List MatchRow) : List MatchRow :=
  if opt = "Overall" then compMatches rows
  else (compMatches rows).filter (fun r => r.awayTeam == opt)

/-- `country_home['IsHomeWin'].sum()` (line 629). -/
def homeWinsOf (l : List MatchRow) : Nat :=
  (l.filter (fun r => isHomeWin r)).length

/-- `country_away['IsAwayWin'].sum()` (line 639). -/
def awayWinsOf (l : List MatchRow) : Nat :=
  (l.filter (fun r => isAwayWin r)).length

/-- `[Winner == 'Draw'].shape[0]` (lines 630, 640). -/
def drawRowsOf (l : List MatchRow) : Nat :=
  (l.filter (fun r => winner r == "Draw")).length

/-- A guarded percentage: `count / total * 100` when `total > 0`, else 0
(the pattern of lines 633-634 and 643-644). -/
def pctOf (count total : Nat) : ℚ :=
  if 0 < total then (count : ℚ) / total * 100 else 0

/-- The home percentage triple of `update_home_away_graph` (lines 628-635):
win and draw percentages guarded against a zero total, loss percentage
defined as `100 - winPct - drawPct`. -/
def homeAwayPercsHome (opt : String) (rows : List MatchRow) : ℚ × ℚ × ℚ :=
  let l := homeSubsetFor opt rows
  let w := pctOf (homeWinsOf l) l.length
  let d := pctOf (drawRowsOf l) l.length
  (w, d, 100 - w - d)

/-- The away percentage triple of `update_home_away_graph` (lines 638-645). -/
def homeAwayPercsAway (opt : String) (rows : List MatchRow) : ℚ × ℚ × ℚ :=
  let l := awaySubsetFor opt rows
  let w := pctOf (awayWinsOf l) l.length
  let d := pctOf (drawRowsOf l) l.length
  (w, d, 100 - w - d)

/-- The per-tournament-row percentage computation of `update_win_rate_graph`
(line 383): `x * 100 / x.sum()`, applied only to rows with a positive total. -/
def tournamentRowPercs (w d lo : Nat) : ℚ × ℚ × ℚ :=
  ((w : ℚ) * 100 / (w + d + lo), (d : ℚ) * 100 / (w + d + lo),
   (lo : ℚ) * 100 / (w + d + lo))

/-- C3 (amended): the home/away view computes win and draw percentages as
count/total×100 guarded to 0 on a zero total, but defines the loss percentage
as the remainder `100 - winPct - drawPct`; hence — on each of the home and the
away triple — the triple always sums to exactly 100, on an empty tally it is
`(0, 0, 100)` rather than `(0, 0, 0)`, and on a positive total whose win and
draw counts fit inside it the loss percentage equals lossCount/total×100.
The win-rate view divides each count by the row total and its triple sums
exactly to 100 there; rows with a zero total are excluded before that
division, so no zero-total triple arises. -/
theorem claim_C3_percentages (opt : String) (rows : List MatchRow) :
    ((homeSubsetFor opt rows).length = 0 → homeAwayPercsHome opt rows = (0, 0, 100)) ∧
    ((awaySubsetFor opt rows).length = 0 → homeAwayPercsAway opt rows = (0, 0, 100)) ∧
    (homeAwayPercsHome opt rows).1 + (homeAwayPercsHome opt rows).2.1 +
      (homeAwayPercsHome opt rows).2.2 = 100 ∧
    (homeAwayPercsAway opt rows).1 + (homeAwayPercsAway opt rows).2.1 +
      (homeAwayPercsAway opt rows).2.2 = 100 ∧
    (0 < (homeSubsetFor opt rows).length →
      homeWinsOf (homeSubsetFor opt rows) + drawRowsOf (homeSubsetFor opt rows) ≤
        (homeSubsetFor opt rows).length →
      (homeAwayPercsHome opt rows).2.2 =
        (((homeSubsetFor opt rows).length - homeWinsOf (homeSubsetFor opt rows) -
          drawRowsOf (homeSubsetFor opt rows) : ℕ) : ℚ) /
          (homeSubsetFor opt rows).length * 100) ∧
    (0 < (awaySubsetFor opt rows).length →
      awayWinsOf (awaySubsetFor opt rows) + drawRowsOf (awaySubsetFor opt rows) ≤
        (awaySubsetFor opt rows).length →
      (homeAwayPercsAway opt rows).2.2 =
        (((awaySubsetFor opt rows).length - awayWinsOf (awaySubsetFor opt rows) -
          drawRowsOf (awaySubsetFor opt rows) : ℕ) : ℚ) /
          (awaySubsetFor opt rows).length * 100) ∧
    (∀ w d lo : Nat, 0 < w + d + lo →
      (tournamentRowPercs w d lo).1 + (tournamentRowPercs w d lo).2.1 +
        (tournamentRowPercs w d lo).2.2 = 100) := by
  refine ⟨?_, ?_, ?_, ?_, ?_, ?_, ?_⟩
  · intro h0
    simp [homeAwayPercsHome, pctOf, h0]
  · intro h0
    simp [homeAwayPercsAway, pctOf, h0]
  · unfold homeAwayPercsHome
    ring
  · unfold homeAwayPercsAway
    ring
  · intro hpos hle
    have hlen : (((homeSubsetFor opt rows).length : ℚ)) ≠ 0 := by
      exact_mod_cast Nat.pos_iff_ne_zero.mp hpos
    have hcast : (((homeSubsetFor opt rows).length - homeWinsOf (homeSubsetFor opt rows) -
          drawRowsOf (homeSubsetFor opt rows) : ℕ) : ℚ)
        = ((homeSubsetFor opt rows).length : ℚ) - (homeWinsOf (homeSubsetFor opt rows) : ℚ) -
          (drawRowsOf (homeSubsetFor opt rows) : ℚ) := by
      have h1 : homeWinsOf (homeSubsetFor opt rows) ≤ (homeSubsetFor opt rows).length := by
        omega
      have h2 : drawRowsOf (homeSubsetFor opt rows) ≤
          (homeSubsetFor opt rows).length - homeWinsOf (homeSubsetFor opt rows) := by
        omega
      rw [Nat.cast_sub h2, Nat.cast_sub h1]
    simp only [homeAwayPercsHome, pctOf, if_pos hpos]
    rw [hcast]
    field_simp
    ring
  · intro hpos hle
    have hlen : (((awaySubsetFor opt rows).length : ℚ)) ≠ 0 := by
      exact_mod_cast Nat.pos_iff_ne_zero.mp hpos
    have hcast : (((awaySubsetFor opt rows).length - awayWinsOf (awaySubsetFor opt rows) -
          drawRowsOf (awaySubsetFor opt rows) : ℕ) : ℚ)
        = ((awaySubsetFor opt rows).length : ℚ) - (awayWinsOf (awaySubsetFor opt rows) : ℚ) -
          (drawRowsOf (awaySubsetFor opt rows) : ℚ) := by
      have h1 : awayWinsOf (awaySubsetFor opt rows) ≤ (awaySubsetFor opt rows).length := by
        omega
      have h2 : drawRowsOf (awaySubsetFor opt rows) ≤
          (awaySubsetFor opt rows).length - awayWinsOf (awaySubsetFor opt rows) := by
        omega
      rw [Nat.cast_sub h2, Nat.cast_sub h1]
    simp only [homeAwayPercsAway, pctOf, if_pos hpos]
    rw [hcast]
    field_simp
    ring
  · intro w d lo hpos
    have hne : ((w : ℚ) + d + lo) ≠ 0 := by
      have : ((w + d + lo : ℕ) : ℚ) ≠ 0 := by
        exact_mod_cast Nat.pos_iff_ne_zero.mp hpos
      push_cast at this
      exact this
    unfold tournamentRowPercs
    field_simp
    ring

/-- C3 counterexample: selecting country `"X"` over a table whose single
competitive record does not involve `"X"` gives empty home and away tallies,
for which the code produces the percentage triple `(0, 0, 100)` on both sides
— the loss percentage is 100, not 0 as the claim states. -/
theorem claim_C3_counterexample :
    homeSubsetFor "X" [(⟨0, "Y", "Z", 1, 0, "C", some "Y", some "Z"⟩ : MatchRow)] = [] ∧
    (homeAwayPercsHome "X"
      [(⟨0, "Y", "Z", 1, 0, "C", some "Y", some "Z"⟩ : MatchRow)]).2.2 = 100 ∧
    awaySubsetFor "X" [(⟨0, "Y", "Z", 1, 0, "C", some "Y", some "Z"⟩ : MatchRow)] = [] ∧
    (homeAwayPercsAway "X"
      [(⟨0, "Y", "Z", 1, 0, "C", some "Y", some "Z"⟩ : MatchRow)]).2.2 = 100 ∧
    ((100 : ℚ) ≠ 0) := by
  have hh : homeSubsetFor "X" [(⟨0, "Y", "Z", 1, 0, "C", some "Y", some "Z"⟩ : MatchRow)]
      = [] := by decide
  have ha : awaySubsetFor "X" [(⟨0, "Y", "Z", 1, 0, "C", some "Y", some "Z"⟩ : MatchRow)]
      = [] := by decide
  refine ⟨hh, ?_, ha, ?_, by norm_num⟩
  · simp [homeAwayPercsHome, pctOf, hh]
  · simp [homeAwayPercsAway, pctOf, ha]

/-- Witness for C3: concrete evaluation of every hypothesis-guarded part of
the amended theorem, on both the home and the away triple. -/
theorem claim_C3_witness :
    (homeAwayPercsHome "X" [] = (0, 0, 100)) ∧
    (homeAwayPercsAway "X" [] = (0, 0, 100)) ∧
    ((homeAwayPercsHome "Overall"
        [(⟨0, "A", "B", 2, 0, "C", some "A", some "B"⟩ : MatchRow)]).2.2 =
      (((homeSubsetFor "Overall"
          [(⟨0, "A", "B", 2, 0, "C", some "A", some "B"⟩ : MatchRow)]).length -
        homeWinsOf (homeSubsetFor "Overall"
          [(⟨0, "A", "B", 2, 0, "C", some "A", some "B"⟩ : MatchRow)]) -
        drawRowsOf (homeSubsetFor "Overall"
          [(⟨0, "A", "B", 2, 0, "C", some "A", some "B"⟩ : MatchRow)]) : ℕ) : ℚ) /
        (homeSubsetFor "Overall"
          [(⟨0, "A", "B", 2, 0, "C", some "A", some "B"⟩ : MatchRow)]).length * 100) ∧
    ((homeAwayPercsAway "Overall"
        [(⟨0, "A", "B", 2, 0, "C", some "A", some "B"⟩ : MatchRow)]).2.2 =
      (((awaySubsetFor "Overall"
          [(⟨0, "A", "B", 2, 0, "C", some "A", some "B"⟩ : MatchRow)]).length -
        awayWinsOf (awaySubsetFor "Overall"
          [(⟨0, "A", "B", 2, 0, "C", some "A", some "B"⟩ : MatchRow)]) -
        drawRowsOf (awaySubsetFor "Overall"
          [(⟨0, "A", "B", 2, 0, "C", some "A", some "B"⟩ : MatchRow)]) : ℕ) : ℚ) /
        (awaySubsetFor "Overall"
          [(⟨0, "A", "B", 2, 0, "C", some "A", some "B"⟩ : MatchRow)]).length * 100) ∧
    ((tournamentRowPercs 2 1 1).1 + (tournamentRowPercs 2 1 1).2.1 +
      (tournamentRowPercs 2 1 1).2.2 = 100) :=
  ⟨(claim_C3_percentages "X" []).1 (by decide),
   (claim_C3_percentages "X" []).2.1 (by decide),
   (claim_C3_percentages "Overall"
      [(⟨0, "A", "B", 2, 0, "C", some "A", some "B"⟩ : MatchRow)]).2.2.2.2.1
     (by decide) (by decide),
   (claim_C3_percentages "Overall"
      [(⟨0, "A", "B", 2, 0, "C", some "A", some "B"⟩ : MatchRow)]).2.2.2.2.2.1
     (by decide) (by decide),
   (claim_C3_percentages "X" []).2.2.2.2.2.2 2 1 1 (by decide)⟩

/-! ### Head-to-head engine (`update_h2h_graph`) -/

/-- `h2h_df_full` (app.py lines 734-735): the records between the two selected
teams, in either home/away orientation. -/
def sharedHistory (t1 t2 : String) (rows : List MatchRow) : List MatchRow :=
  rows.filter (fun r => (r.homeTeam == t1 && r.awayTeam == t2) ||
    (r.homeTeam == t2 && r.awayTeam == t1))

/-- `h2h_df_full[h2h_df_full['Winner'] == t].shape[0]` (lines 757-759). -/
def winnerCount (t : String) (l : List MatchRow) : Nat :=
  (l.filter (fun r => winner r == t)).length

/-- `team1_home` / `team2_home` (lines 767-768). -/
def homeRows (t : String) (l : List MatchRow) : List MatchRow :=
  l.filter (fun r => r.homeTeam == t)

/-- overall `Win Rate` (lines 771-772). -/
def winRateH2H (t : String) (l : List MatchRow) : ℚ :=
  if 0 < l.length then (winnerCount t l : ℚ) / l.length * 100 else 0

/-- `Home Win Rate` (lines 775-776): wins of `t` among the matches it hosted,
over the number of matches it hosted, 0 when it hosted none. -/
def homeWinRateH2H (t : String) (l : List MatchRow) : ℚ :=
  if 0 < (homeRows t l).length then
    (winnerCount t (homeRows t l) : ℚ) / (homeRows t l).length * 100
  else 0

/-- The Home Win Rate as worded by the spec (§4.4): P's wins in the §4.3
perspective sense (on the winning side of the goal-derived outcome),
restricted to the shared records where P was the home side, over the count of
those records, × 100; 0 if P was never home against the opponent. -/
def homeWinRateSpec (t : String) (l : List MatchRow) : ℚ :=
  if 0 < (homeRows t l).length then
    (((homeRows t l).filter (fun r =>
        decide ((r.homeTeam = t ∧ outcomeOf r.homeGoals r.awayGoals = Outcome.HomeWin) ∨
          (r.awayTeam = t ∧ outcomeOf r.homeGoals r.awayGoals = Outcome.AwayWin)))).length : ℚ)
      / (homeRows t l).length * 100
  else 0

/-- date-descending order used by `sort_values('Date', ascending=False)`. -/
def laterDate (a b : MatchRow) : Prop := b.date ≤ a.date

instance : DecidableRel laterDate :=
  fun a b => inferInstanceAs (Decidable (b.date ≤ a.date))

/-- `recent_matches` (line 790): the shared history sorted by date descending,
first five rows. -/
def recentMatches (l : List MatchRow) : List MatchRow :=
  (List.insertionSort laterDate l).take 5

/-- the weight vector `[5, 4, 3, 2, 1]` (line 793). -/
def weights : List ℚ := [5, 4, 3, 2, 1]

/-- `max_points = sum(weights)` (line 796): always 15, regardless of how many
recent matches actually exist. -/
def maxPoints : ℚ := weights.sum

/-- The accumulation loop of lines 798-805: walking the recent matches in
recency order paired with the weights, the full weight goes to the side whose
name equals the `Winner` value, half the weight to each side otherwise. -/
def recentPointsPair (t1 t2 : String) : List MatchRow → List ℚ → ℚ × ℚ
  | r :: rs, w :: ws =>
    let p := recentPointsPair t1 t2 rs ws
    if winner r == t1 then (p.1 + w, p.2)
    else if winner r == t2 then (p.1, p.2 + w)
    else (p.1 + w * (1 / 2), p.2 + w * (1 / 2))
  | _, _ => (0, 0)

/-- `team1_stats['Recent Form']` (line 807). -/
def recentForm1 (t1 t2 : String) (l : List MatchRow) : ℚ :=
  (recentPointsPair t1 t2 (recentMatches l) weights).1 / maxPoints * 100

/-- `team2_stats['Recent Form']` (line 808). -/
def recentForm2 (t1 t2 : String) (l : List MatchRow) : ℚ :=
  (recentPointsPair t1 t2 (recentMatches l) weights).2 / maxPoints * 100

/-- The comparative profile assembled by `update_h2h_graph` when both teams
are distinct and share history. -/
structure H2HStats where
  team1Wins : Nat
  team2Wins : Nat
  draws : Nat
  totalMatches : Nat
  winRate1 : ℚ
  winRate2 : ℚ
  homeWinRate1 : ℚ
  homeWinRate2 : ℚ
  recentFormT1 : ℚ
  recentFormT2 : ℚ
deriving DecidableEq, Repr

/-- The three possible outcomes of the head-to-head callback: the
"select two different teams" marker (lines 715-731), the "no match history"
marker (lines 738-754), or a computed summary. -/
inductive H2HView where
  | invalidSelection : H2HView
  | noHistory : H2HView
  | stats : H2HStats → H2HView
deriving DecidableEq, Repr

/-- `update_h2h_graph` (lines 714-760 and onward), restricted to the numeric
summary it computes.  `None` or an empty team value is falsy in
`if not team1 or not team2 or team1 == team2`. -/
def update_h2h_graph (team1 team2 : Option String) (rows : List MatchRow) : H2HView :=
  match team1, team2 with
  | some t1, some t2 =>
    if t1 = "" ∨ t2 = "" ∨ t1 = t2 then H2HView.invalidSelection
    else
      if sharedHistory t1 t2 rows = [] then H2HView.noHistory
      else
        H2HView.stats
          ⟨winnerCount t1 (sharedHistory t1 t2 rows),
           winnerCount t2 (sharedHistory t1 t2 rows),
           winnerCount "Draw" (sharedHistory t1 t2 rows),
           (sharedHistory t1 t2 rows).length,
           winRateH2H t1 (sharedHistory t1 t2 rows),
           winRateH2H t2 (sharedHistory t1 t2 rows),
           homeWinRateH2H t1 (sharedHistory t1 t2 rows),
           homeWinRateH2H t2 (sharedHistory t1 t2 rows),
           recentForm1 t1 t2 (sharedHistory t1 t2 rows),
           recentForm2 t1 t2 (sharedHistory t1 t2 rows)⟩
  | _, _ => H2HView.invalidSelection

/-! ### Recent-form lemmas -/

lemma weights_nonneg : ∀ w ∈ weights, (0 : ℚ) ≤ w := by decide

lemma weights_sum : weights.sum = 15 := by
  simp [weights]
  norm_num

lemma maxPoints_eq : maxPoints = 15 := by
  rw [maxPoints, weights_sum]

lemma recentPointsPair_bounds (t1 t2 : String) :
    ∀ (ms : List MatchRow) (ws : List ℚ), (∀ w ∈ ws, 0 ≤ w) →
      0 ≤ (recentPointsPair t1 t2 ms ws).1 ∧ 0 ≤ (recentPointsPair t1 t2 ms ws).2 ∧
      (recentPointsPair t1 t2 ms ws).1 + (recentPointsPair t1 t2 ms ws).2 ≤ ws.sum := by
  intro ms
  induction ms with
  | nil =>
    intro ws hw
    refine ⟨le_refl 0, le_refl 0, ?_⟩
    simpa [recentPointsPair] using List.sum_nonneg hw
  | cons r rs ih =>
    intro ws hw
    cases ws with
    | nil => simp [recentPointsPair]
    | cons w ws' =>
      have hw0 : (0 : ℚ) ≤ w := hw w (by simp)
      have hws' : ∀ x ∈ ws', (0 : ℚ) ≤ x := fun x hx => hw x (by simp [hx])
      obtain ⟨h1, h2, h3⟩ := ih ws' hws'
      simp only [recentPointsPair, List.sum_cons]
      split_ifs with hc1 hc2
      · exact ⟨by dsimp only; linarith, by dsimp only; linarith, by dsimp only; linarith⟩
      · exact ⟨by dsimp only; linarith, by dsimp only; linarith, by dsimp only; linarith⟩
      · exact ⟨by dsimp only; linarith, by dsimp only; linarith, by dsimp only; linarith⟩

lemma recentPointsPair_total (t1 t2 : String) :
    ∀ (ms : List MatchRow) (ws : List ℚ), ms.length = ws.length →
      (recentPointsPair t1 t2 ms ws).1 + (recentPointsPair t1 t2 ms ws).2 = ws.sum := by
  intro ms
  induction ms with
  | nil =>
    intro ws hlen
    have : ws = [] := List.eq_nil_of_length_eq_zero hlen.symm
    simp [this, recentPointsPair]
  | cons r rs ih =>
    intro ws hlen
    cases ws with
    | nil => simp at hlen
    | cons w ws' =>
      have hlen' : rs.length = ws'.length := by simpa using hlen
      have := ih ws' hlen'
      simp only [recentPointsPair, List.sum_cons]
      split_ifs with hc1 hc2 <;> simp <;> linarith

lemma recentPointsPair_all_win (t1 t2 : String) :
    ∀ (ms : List MatchRow) (ws : List ℚ), ms.length = ws.length →
      (∀ r ∈ ms, winner r = t1) →
      (recentPointsPair t1 t2 ms ws).1 = ws.sum := by
  intro ms
  induction ms with
  | nil =>
    intro ws hlen _
    have : ws = [] := List.eq_nil_of_length_eq_zero hlen.symm
    simp [this, recentPointsPair]
  | cons r rs ih =>
    intro ws hlen hall
    cases ws with
    | nil => simp at hlen
    | cons w ws' =>
      have hlen' : rs.length = ws'.length := by simpa using hlen
      have hr : winner r = t1 := hall r (by simp)
      have hrs : ∀ x ∈ rs, winner x = t1 := fun x hx => hall x (by simp [hx])
      have := ih ws' hlen' hrs
      simp only [recentPointsPair, List.sum_cons]
      rw [if_pos (by simp [hr])]
      simp only []
      linarith

lemma recentPointsPair_all_loss (t1 t2 : String) :
    ∀ (ms : List MatchRow) (ws : List ℚ),
      (∀ r ∈ ms, winner r ≠ t1 ∧ winner r = t2) →
      (recentPointsPair t1 t2 ms ws).1 = 0 := by
  intro ms
  induction ms with
  | nil => intro ws _; simp [recentPointsPair]
  | cons r rs ih =>
    intro ws hall
    cases ws with
    | nil => simp [recentPointsPair]
    | cons w ws' =>
      obtain ⟨hne, heq⟩ := hall r (by simp)
      have hrs : ∀ x ∈ rs, winner x ≠ t1 ∧ winner x = t2 := fun x hx => hall x (by simp [hx])
      have := ih ws' hrs
      simp only [recentPointsPair]
      rw [if_neg (by simp [hne]), if_pos (by simp [heq])]
      simpa using this

lemma recentMatches_length (l : List MatchRow) :
    (recentMatches l).length = min 5 l.length := by
  simp [recentMatches, List.length_take, List.length_insertionSort]

/-- C1 (amended): the Recent Form denominator is the fixed maximum 15
(`max_points = sum(weights)`), not the sum of the weights actually used; the
score still lies in [0,100] for every non-empty shared history and is exactly
0 when the participant lost every considered match, but it reaches exactly
100 only when at least 5 shared matches exist and the participant won all 5
considered; with a shorter history an all-win record scores below 100. -/
theorem claim_C1_recent_form (t1 t2 : String) (rows : List MatchRow)
    (hne : sharedHistory t1 t2 rows ≠ []) :
    maxPoints = 15 ∧
    0 ≤ recentForm1 t1 t2 (sharedHistory t1 t2 rows) ∧
    recentForm1 t1 t2 (sharedHistory t1 t2 rows) ≤ 100 ∧
    0 ≤ recentForm2 t1 t2 (sharedHistory t1 t2 rows) ∧
    recentForm2 t1 t2 (sharedHistory t1 t2 rows) ≤ 100 ∧
    (5 ≤ (sharedHistory t1 t2 rows).length →
      (∀ r ∈ recentMatches (sharedHistory t1 t2 rows), winner r = t1) →
      recentForm1 t1 t2 (sharedHistory t1 t2 rows) = 100) ∧
    ((∀ r ∈ recentMatches (sharedHistory t1 t2 rows), winner r ≠ t1 ∧ winner r = t2) →
      recentForm1 t1 t2 (sharedHistory t1 t2 rows) = 0) := by
  obtain ⟨hb1, hb2, hb3⟩ := recentPointsPair_bounds t1 t2
    (recentMatches (sharedHistory t1 t2 rows)) weights weights_nonneg
  rw [weights_sum] at hb3
  refine ⟨maxPoints_eq, ?_, ?_, ?_, ?_, ?_, ?_⟩
  · unfold recentForm1
    rw [maxPoints_eq]
    positivity
  · unfold recentForm1
    rw [maxPoints_eq]
    rw [div_mul_eq_mul_div, div_le_iff (by norm_num : (0 : ℚ) < 15)]
    linarith
  · unfold recentForm2
    rw [maxPoints_eq]
    positivity
  · unfold recentForm2
    rw [maxPoints_eq]
    rw [div_mul_eq_mul_div, div_le_iff (by norm_num : (0 : ℚ) < 15)]
    linarith
  · intro h5 hall
    have hlen : (recentMatches (sharedHistory t1 t2 rows)).length = weights.length := by
      rw [recentMatches_length]
      simp [weights]
      omega
    have := recentPointsPair_all_win t1 t2 (recentMatches (sharedHistory t1 t2 rows))
      weights hlen hall
    unfold recentForm1
    rw [this, weights_sum, maxPoints_eq]
    norm_num
  · intro hall
    have := recentPointsPair_all_loss t1 t2 (recentMatches (sharedHistory t1 t2 rows))
      weights hall
    unfold recentForm1
    rw [this, maxPoints_eq]
    norm_num

/-- C1 counterexample: a single shared match that team A won.  Only weight 5
was used, yet the denominator stays 15, so A's Recent Form is 100/3 ≈ 33.3,
not 100 as the claim's shrinking-denominator rule would give for a
participant that won every considered match. -/
theorem claim_C1_counterexample :
    sharedHistory "A" "B" [(⟨9, "A", "B", 1, 0, "C", some "A", some "B"⟩ : MatchRow)] =
      [(⟨9, "A", "B", 1, 0, "C", some "A", some "B"⟩ : MatchRow)] ∧
    (∀ r ∈ recentMatches (sharedHistory "A" "B"
        [(⟨9, "A", "B", 1, 0, "C", some "A", some "B"⟩ : MatchRow)]), winner r = "A") ∧
    recentForm1 "A" "B" (sharedHistory "A" "B"
      [(⟨9, "A", "B", 1, 0, "C", some "A", some "B"⟩ : MatchRow)]) = 100 / 3 ∧
    (100 / 3 : ℚ) ≠ 100 := by
  have hsh : sharedHistory "A" "B" [(⟨9, "A", "B", 1, 0, "C", some "A", some "B"⟩ : MatchRow)] =
      [(⟨9, "A", "B", 1, 0, "C", some "A", some "B"⟩ : MatchRow)] := by decide
  refine ⟨hsh, ?_, ?_, by norm_num⟩
  · rw [hsh]
    intro r hr
    simp [recentMatches, List.insertionSort, winner] at hr ⊢
    rw [hr]
    decide
  · rw [hsh]
    simp [recentForm1, recentMatches, List.insertionSort, recentPointsPair, winner,
      maxPoints_eq, weights]
    norm_num

/-- Witness for C1: the amended theorem evaluated on a concrete one-match
shared history. -/
theorem claim_C1_witness :
    maxPoints = 15 ∧
    0 ≤ recentForm1 "A" "B" (sharedHistory "A" "B"
      [(⟨9, "A", "B", 0, 2, "C", some "B", some "A"⟩ : MatchRow)]) ∧
    recentForm1 "A" "B" (sharedHistory "A" "B"
      [(⟨9, "A", "B", 0, 2, "C", some "B", some "A"⟩ : MatchRow)]) ≤ 100 ∧
    0 ≤ recentForm2 "A" "B" (sharedHistory "A" "B"
      [(⟨9, "A", "B", 0, 2, "C", some "B", some "A"⟩ : MatchRow)]) ∧
    recentForm2 "A" "B" (sharedHistory "A" "B"
      [(⟨9, "A", "B", 0, 2, "C", some "B", some "A"⟩ : MatchRow)]) ≤ 100 ∧
    recentForm1 "A" "B" (sharedHistory "A" "B"
      [(⟨9, "A", "B", 0, 2, "C", some "B", some "A"⟩ : MatchRow)]) = 0 ∧
    recentForm1 "A" "B" (sharedHistory "A" "B"
      [(⟨5, "A", "B", 1, 0, "C", some "A", some "B"⟩ : MatchRow),
       (⟨4, "B", "A", 0, 2, "C", some "A", some "B"⟩ : MatchRow),
       (⟨3, "A", "B", 2, 0, "C", some "A", some "B"⟩ : MatchRow),
       (⟨2, "B", "A", 1, 3, "C", some "A", some "B"⟩ : MatchRow),
       (⟨1, "A", "B", 4, 0, "C", some "A", some "B"⟩ : MatchRow)]) = 100 := by
  have h := claim_C1_recent_form "A" "B"
    [(⟨9, "A", "B", 0, 2, "C", some "B", some "A"⟩ : MatchRow)] (by decide)
  have h5 := claim_C1_recent_form "A" "B"
    [(⟨5, "A", "B", 1, 0, "C", some "A", some "B"⟩ : MatchRow),
     (⟨4, "B", "A", 0, 2, "C", some "A", some "B"⟩ : MatchRow),
     (⟨3, "A", "B", 2, 0, "C", some "A", some "B"⟩ : MatchRow),
     (⟨2, "B", "A", 1, 3, "C", some "A", some "B"⟩ : MatchRow),
     (⟨1, "A", "B", 4, 0, "C", some "A", some "B"⟩ : MatchRow)] (by decide)
  exact ⟨h.1, h.2.1, h.2.2.1, h.2.2.2.1, h.2.2.2.2.1, h.2.2.2.2.2.2 (by decide),
    h5.2.2.2.2.2.1 (by decide) (by decide)⟩

/-- C9: when at least five shared matches exist, each of the five considered
matches contributes its full weight to exactly one side (or half to each on a
draw), so the two point totals sum to the shared denominator 15 and the two
Recent Form scores sum to exactly 100. -/
theorem claim_C9_form_sum (t1 t2 : String) (rows : List MatchRow)
    (h5 : 5 ≤ (sharedHistory t1 t2 rows).length) :
    recentForm1 t1 t2 (sharedHistory t1 t2 rows) +
      recentForm2 t1 t2 (sharedHistory t1 t2 rows) = 100 := by
  have hlen : (recentMatches (sharedHistory t1 t2 rows)).length = weights.length := by
    rw [recentMatches_length]
    simp [weights]
    omega
  have htot := recentPointsPair_total t1 t2 (recentMatches (sharedHistory t1 t2 rows))
    weights hlen
  rw [weights_sum] at htot
  unfold recentForm1 recentForm2
  rw [maxPoints_eq]
  rw [div_mul_eq_mul_div, div_mul_eq_mul_div, div_add_div_same]
  rw [div_eq_iff (by norm_num : (15 : ℚ) ≠ 0)]
  linarith

/-- Witness for C9: five concrete shared matches (2 wins each, 1 draw). -/
theorem claim_C9_witness :
    recentForm1 "A" "B" (sharedHistory "A" "B"
      [(⟨5, "A", "B", 1, 0, "C", some "A", some "B"⟩ : MatchRow),
       (⟨4, "B", "A", 2, 0, "C", some "B", some "A"⟩ : MatchRow),
       (⟨3, "A", "B", 1, 1, "C", none, none⟩ : MatchRow),
       (⟨2, "B", "A", 0, 3, "C", some "A", some "B"⟩ : MatchRow),
       (⟨1, "A", "B", 0, 1, "C", some "B", some "A"⟩ : MatchRow)]) +
    recentForm2 "A" "B" (sharedHistory "A" "B"
      [(⟨5, "A", "B", 1, 0, "C", some "A", some "B"⟩ : MatchRow),
       (⟨4, "B", "A", 2, 0, "C", some "B", some "A"⟩ : MatchRow),
       (⟨3, "A", "B", 1, 1, "C", none, none⟩ : MatchRow),
       (⟨2, "B", "A", 0, 3, "C", some "A", some "B"⟩ : MatchRow),
       (⟨1, "A", "B", 0, 1, "C", some "B", some "A"⟩ : MatchRow)]) = 100 :=
  claim_C9_form_sum "A" "B"
    [(⟨5, "A", "B", 1, 0, "C", some "A", some "B"⟩ : MatchRow),
     (⟨4, "B", "A", 2, 0, "C", some "B", some "A"⟩ : MatchRow),
     (⟨3, "A", "B", 1, 1, "C", none, none⟩ : MatchRow),
     (⟨2, "B", "A", 0, 3, "C", some "A", some "B"⟩ : MatchRow),
     (⟨1, "A", "B", 0, 1, "C", some "B", some "A"⟩ : MatchRow)] (by decide)

/-- C5: the head-to-head callback never reaches the summary computation on
degenerate input: identical (or missing/empty) team selections yield the
"select two different teams" marker, and two valid distinct teams without any
shared record yield the "no match history" marker; both are explicit markers,
not faults. -/
theorem claim_C5_degenerate_markers (t t1 t2 : String) (rows : List MatchRow) :
    update_h2h_graph (some t) (some t) rows = H2HView.invalidSelection ∧
    update_h2h_graph none (some t) rows = H2HView.invalidSelection ∧
    update_h2h_graph (some t) none rows = H2HView.invalidSelection ∧
    (t1 ≠ "" → t2 ≠ "" → t1 ≠ t2 → sharedHistory t1 t2 rows = [] →
      update_h2h_graph (some t1) (some t2) rows = H2HView.noHistory) := by
  refine ⟨?_, rfl, rfl, ?_⟩
  · unfold update_h2h_graph
    dsimp only
    rw [if_pos (Or.inr (Or.inr rfl))]
  · intro h1 h2 h12 hsh
    unfold update_h2h_graph
    dsimp only
    rw [if_neg (by simp [h1, h2, h12]), if_pos hsh]

/-- Witness for C5: the markers on concrete degenerate inputs. -/
theorem claim_C5_witness :
    update_h2h_graph (some "A") (some "A") [] = H2HView.invalidSelection ∧
    update_h2h_graph (some "A") (some "B")
      [(⟨0, "A", "C", 1, 0, "T", some "A", some "C"⟩ : MatchRow)] = H2HView.noHistory :=
  ⟨(claim_C5_degenerate_markers "A" "A" "B" []).1,
   (claim_C5_degenerate_markers "A" "A" "B"
      [(⟨0, "A", "C", 1, 0, "T", some "A", some "C"⟩ : MatchRow)]).2.2.2
     (by decide) (by decide) (by decide) (by decide)⟩

/-! ### Raw head-to-head tallies (C10) -/

lemma sharedHistory_mem (t1 t2 : String) (rows : List MatchRow) (r : MatchRow)
    (hr : r ∈ sharedHistory t1 t2 rows) :
    (r.homeTeam = t1 ∧ r.awayTeam = t2) ∨ (r.homeTeam = t2 ∧ r.awayTeam = t1) := by
  have := (List.mem_filter.mp hr).2
  simp only [Bool.or_eq_true, Bool.and_eq_true, beq_iff_eq] at this
  exact this

/-- C10: over a shared history of two distinct participants (neither named by
the sentinel `"Draw"` string), every record's `Winner` value is one of the two
participant names or `"Draw"`, so the three raw tallies partition the subset
and sum to the total shared match count. -/
theorem claim_C10_tally_partition (t1 t2 : String) (rows : List MatchRow)
    (h12 : t1 ≠ t2) (h1d : t1 ≠ "Draw") (h2d : t2 ≠ "Draw")
    (hne : sharedHistory t1 t2 rows ≠ []) :
    winnerCount t1 (sharedHistory t1 t2 rows) + winnerCount t2 (sharedHistory t1 t2 rows) +
      winnerCount "Draw" (sharedHistory t1 t2 rows) = (sharedHistory t1 t2 rows).length := by
  have hmem : ∀ r ∈ sharedHistory t1 t2 rows,
      ([fun r => winner r == t1, fun r => winner r == t2, fun r => winner r == "Draw"] :
        List (MatchRow → Bool)).countP (fun p => p r) = 1 := by
    intro r hr
    have hw : winner r = t1 ∨ winner r = t2 ∨ winner r = "Draw" := by
      rcases sharedHistory_mem t1 t2 rows r hr with ⟨hh, ha⟩ | ⟨hh, ha⟩ <;>
        rcases winner_cases r with h | h | h <;> simp [h, hh, ha]
    rcases hw with h | h | h
    · simp [List.countP_cons, h, h12, h1d]
    · simp [List.countP_cons, h, Ne.symm h12, h2d]
    · simp [List.countP_cons, h, Ne.symm h1d, Ne.symm h2d]
  have hp := partition_count
    ([fun r => winner r == t1, fun r => winner r == t2, fun r => winner r == "Draw"] :
      List (MatchRow → Bool)) (sharedHistory t1 t2 rows) hmem
  simpa [winnerCount, Nat.add_assoc] using hp

/-- Witness for C10: two wins for A, one for B, one draw over four shared
records. -/
theorem claim_C10_witness :
    winnerCount "A" (sharedHistory "A" "B"
      [(⟨4, "A", "B", 2, 0, "T", some "A", some "B"⟩ : MatchRow),
       (⟨3, "B", "A", 0, 1, "T", some "A", some "B"⟩ : MatchRow),
       (⟨2, "B", "A", 2, 1, "T", some "B", some "A"⟩ : MatchRow),
       (⟨1, "A", "B", 1, 1, "T", none, none⟩ : MatchRow)]) +
    winnerCount "B" (sharedHistory "A" "B"
      [(⟨4, "A", "B", 2, 0, "T", some "A", some "B"⟩ : MatchRow),
       (⟨3, "B", "A", 0, 1, "T", some "A", some "B"⟩ : MatchRow),
       (⟨2, "B", "A", 2, 1, "T", some "B", some "A"⟩ : MatchRow),
       (⟨1, "A", "B", 1, 1, "T", none, none⟩ : MatchRow)]) +
    winnerCount "Draw" (sharedHistory "A" "B"
      [(⟨4, "A", "B", 2, 0, "T", some "A", some "B"⟩ : MatchRow),
       (⟨3, "B", "A", 0, 1, "T", some "A", some "B"⟩ : MatchRow),
       (⟨2, "B", "A", 2, 1, "T", some "B", some "A"⟩ : MatchRow),
       (⟨1, "A", "B", 1, 1, "T", none, none⟩ : MatchRow)]) =
    (sharedHistory "A" "B"
      [(⟨4, "A", "B", 2, 0, "T", some "A", some "B"⟩ : MatchRow),
       (⟨3, "B", "A", 0, 1, "T", some "A", some "B"⟩ : MatchRow),
       (⟨2, "B", "A", 2, 1, "T", some "B", some "A"⟩ : MatchRow),
       (⟨1, "A", "B", 1, 1, "T", none, none⟩ : MatchRow)]).length :=
  claim_C10_tally_partition "A" "B"
    [(⟨4, "A", "B", 2, 0, "T", some "A", some "B"⟩ : MatchRow),
     (⟨3, "B", "A", 0, 1, "T", some "A", some "B"⟩ : MatchRow),
     (⟨2, "B", "A", 2, 1, "T", some "B", some "A"⟩ : MatchRow),
     (⟨1, "A", "B", 1, 1, "T", none, none⟩ : MatchRow)]
    (by decide) (by decide) (by decide) (by decide)

/-! ### Home win rate (C6) -/

lemma homeRows_shared_mem (t1 t2 : String) (rows : List MatchRow) (h12 : t1 ≠ t2)
    (r : MatchRow) (hr : r ∈ homeRows t1 (sharedHistory t1 t2 rows)) :
    r.homeTeam = t1 ∧ r.awayTeam = t2 := by
  have hh : r.homeTeam = t1 := by
    have := (List.mem_filter.mp hr).2
    simpa using this
  have hs : r ∈ sharedHistory t1 t2 rows := (List.mem_filter.mp hr).1
  rcases sharedHistory_mem t1 t2 rows r hs with ⟨_, ha⟩ | ⟨hh2, _⟩
  · exact ⟨hh, ha⟩
  · exact absurd (hh2.symm.trans hh) (Ne.symm h12)

lemma winner_beq_eq_spec_win (t1 t2 : String) (h12 : t1 ≠ t2) (h1d : t1 ≠ "Draw")
    (r : MatchRow) (hh : r.homeTeam = t1) (ha : r.awayTeam = t2) :
    (winner r == t1) =
      decide ((r.homeTeam = t1 ∧ outcomeOf r.homeGoals r.awayGoals = Outcome.HomeWin) ∨
        (r.awayTeam = t1 ∧ outcomeOf r.homeGoals r.awayGoals = Outcome.AwayWin)) := by
  rcases Nat.lt_trichotomy r.homeGoals r.awayGoals with hlt | heq | hgt
  · have hw := winner_of_away_gt r hlt
    have hout : outcomeOf r.homeGoals r.awayGoals = Outcome.AwayWin := by
      unfold outcomeOf
      have h1 : ¬ r.homeGoals > r.awayGoals := by omega
      simp [h1, hlt]
    have hne : r.awayTeam ≠ t1 := by rw [ha]; exact Ne.symm h12
    simp [hw, ha, hout, hne, Ne.symm h12]
  · have hw := winner_of_draw r heq
    have hout : outcomeOf r.homeGoals r.awayGoals = Outcome.Draw :=
      (outcomeOf_eq_draw_iff _ _).mpr heq
    simp [hw, hout, Ne.symm h1d]
  · have hw := winner_of_home_gt r hgt
    have hout : outcomeOf r.homeGoals r.awayGoals = Outcome.HomeWin := by
      unfold outcomeOf
      simp [hgt]
    simp [hw, hh, hout]

/-- C6: over the shared history of two distinct participants, the code's Home
Win Rate for a participant equals the spec's formula — the participant's
perspective wins restricted to the shared records it hosted, divided by the
number of shared records it hosted, × 100 — and is 0 when it hosted none.
The shared subset itself is symmetric in the two participants, so the same
statement instantiated with the roles swapped covers the other one. -/
theorem claim_C6_home_win_rate (t1 t2 : String) (rows : List MatchRow)
    (h12 : t1 ≠ t2) (h1d : t1 ≠ "Draw") :
    homeWinRateH2H t1 (sharedHistory t1 t2 rows) =
      homeWinRateSpec t1 (sharedHistory t1 t2 rows) ∧
    ((homeRows t1 (sharedHistory t1 t2 rows)).length = 0 →
      homeWinRateH2H t1 (sharedHistory t1 t2 rows) = 0) ∧
    (0 < (homeRows t1 (sharedHistory t1 t2 rows)).length →
      homeWinRateH2H t1 (sharedHistory t1 t2 rows) =
        (winnerCount t1 (homeRows t1 (sharedHistory t1 t2 rows)) : ℚ) /
          (homeRows t1 (sharedHistory t1 t2 rows)).length * 100) ∧
    sharedHistory t2 t1 rows = sharedHistory t1 t2 rows := by
  refine ⟨?_, ?_, ?_, ?_⟩
  · have hfc : (homeRows t1 (sharedHistory t1 t2 rows)).filter (fun r => winner r == t1) =
        (homeRows t1 (sharedHistory t1 t2 rows)).filter (fun r =>
          decide ((r.homeTeam = t1 ∧ outcomeOf r.homeGoals r.awayGoals = Outcome.HomeWin) ∨
            (r.awayTeam = t1 ∧ outcomeOf r.homeGoals r.awayGoals = Outcome.AwayWin))) := by
      refine List.filter_congr ?_
      intro r hr
      obtain ⟨hh, ha⟩ := homeRows_shared_mem t1 t2 rows h12 r hr
      exact winner_beq_eq_spec_win t1 t2 h12 h1d r hh ha
    unfold homeWinRateH2H homeWinRateSpec winnerCount
    rw [hfc]
  · intro h0
    unfold homeWinRateH2H
    rw [if_neg (by omega)]
  · intro hpos
    unfold homeWinRateH2H
    rw [if_pos hpos]
  · unfold sharedHistory
    refine List.filter_congr ?_
    intro r _
    exact Bool.or_comm _ _

/-- Witness for C6: a concrete shared history where A hosted one of the two
matches and won it. -/
theorem claim_C6_witness :
    homeWinRateH2H "A" (sharedHistory "A" "B"
      [(⟨2, "A", "B", 3, 1, "T", some "A", some "B"⟩ : MatchRow),
       (⟨1, "B", "A", 2, 2, "T", none, none⟩ : MatchRow)]) =
      homeWinRateSpec "A" (sharedHistory "A" "B"
        [(⟨2, "A", "B", 3, 1, "T", some "A", some "B"⟩ : MatchRow),
         (⟨1, "B", "A", 2, 2, "T", none, none⟩ : MatchRow)]) ∧
    homeWinRateH2H "A" (sharedHistory "A" "B"
      [(⟨2, "A", "B", 3, 1, "T", some "A", some "B"⟩ : MatchRow),
       (⟨1, "B", "A", 2, 2, "T", none, none⟩ : MatchRow)]) =
      (winnerCount "A" (homeRows "A" (sharedHistory "A" "B"
        [(⟨2, "A", "B", 3, 1, "T", some "A", some "B"⟩ : MatchRow),
         (⟨1, "B", "A", 2, 2, "T", none, none⟩ : MatchRow)])) : ℚ) /
        (homeRows "A" (sharedHistory "A" "B"
          [(⟨2, "A", "B", 3, 1, "T", some "A", some "B"⟩ : MatchRow),
           (⟨1, "B", "A", 2, 2, "T", none, none⟩ : MatchRow)])).length * 100 :=
  ⟨(claim_C6_home_win_rate "A" "B"
      [(⟨2, "A", "B", 3, 1, "T", some "A", some "B"⟩ : MatchRow),
       (⟨1, "B", "A", 2, 2, "T", none, none⟩ : MatchRow)] (by decide) (by decide)).1,
   (claim_C6_home_win_rate "A" "B"
      [(⟨2, "A", "B", 3, 1, "T", some "A", some "B"⟩ : MatchRow),
       (⟨1, "B", "A", 2, 2, "T", none, none⟩ : MatchRow)] (by decide) (by decide)).2.2.1
     (by decide)⟩

/-! ### Directed outcome-flow table (C2) -/

/-- Outcome buckets of the head-to-head flow breakdown, from the fixed global
A-vs-B perspective. -/
inductive Bucket where
  | AWins : Bucket
  | BWins : Bucket
  | Draw : Bucket
deriving DecidableEq, Repr

/-- Modelled from the spec: `app.py` renders no flow diagram, so the flow
computation of §4.4 step 4 is absent from the source; the outcome bucket of a
shared match, resolved against the two fixed participant names. -/
def bucketOf (a b : String) (r : MatchRow) : Bucket :=
  if winner r == a then Bucket.AWins
  else if winner r == b then Bucket.BWins
  else Bucket.Draw

/-- Modelled from the spec: the count accumulated for one
`(source, bucket)` cell — shared matches hosted by `src` whose outcome falls
in bucket `bk`. -/
def flowCount (a b : String) (shared : List MatchRow) (src : String) (bk : Bucket) : Nat :=
  (shared.filter (fun r => r.homeTeam == src && bucketOf a b r == bk)).length

/-- Modelled from the spec: the directed flow table — one entry per
`(source, bucket)` pair over the two sources and three buckets
(2 × 3 = 6 cells), with zero-count entries omitted. -/
def flowTable (a b : String) (shared : List MatchRow) : List (String × Bucket × Nat) :=
  ([(a, Bucket.AWins, flowCount a b shared a Bucket.AWins),
    (a, Bucket.BWins, flowCount a b shared a Bucket.BWins),
    (a, Bucket.Draw, flowCount a b shared a Bucket.Draw),
    (b, Bucket.AWins, flowCount a b shared b Bucket.AWins),
    (b, Bucket.BWins, flowCount a b shared b Bucket.BWins),
    (b, Bucket.Draw, flowCount a b shared b Bucket.Draw)].filter (fun e => e.2.2 != 0))

/-- dropping the zero-valued entries of a list does not change the sum of its
values. -/
lemma sum_filter_nze {α : Type} (f : α → Nat) (l : List α) :
    ((l.filter (fun x => f x != 0)).map f).sum = (l.map f).sum := by
  induction l with
  | nil => simp
  | cons hd tl ih =>
    by_cases h : f hd = 0
    · simp [List.filter_cons, h, ih]
    · simp [List.filter_cons, h, ih]

/-- C2: the flow table of two distinct participants with shared history never
contains a zero-valued edge, has at most 6 edges, and its edge values sum to
the total shared match count. -/
theorem claim_C2_flow_table (a b : String) (rows : List MatchRow) (hab : a ≠ b) :
    (∀ e ∈ flowTable a b (sharedHistory a b rows), e.2.2 ≠ 0) ∧
    (flowTable a b (sharedHistory a b rows)).length ≤ 6 ∧
    ((flowTable a b (sharedHistory a b rows)).map (fun e => e.2.2)).sum =
      (sharedHistory a b rows).length := by
  refine ⟨?_, ?_, ?_⟩
  · intro e he
    have := (List.mem_filter.mp he).2
    simpa using this
  · exact le_trans (List.length_filter_le _ _) (by simp)
  · have hmem : ∀ r ∈ sharedHistory a b rows,
        ([fun r => r.homeTeam == a && bucketOf a b r == Bucket.AWins,
          fun r => r.homeTeam == a && bucketOf a b r == Bucket.BWins,
          fun r => r.homeTeam == a && bucketOf a b r == Bucket.Draw,
          fun r => r.homeTeam == b && bucketOf a b r == Bucket.AWins,
          fun r => r.homeTeam == b && bucketOf a b r == Bucket.BWins,
          fun r => r.homeTeam == b && bucketOf a b r == Bucket.Draw] :
            List (MatchRow → Bool)).countP (fun p => p r) = 1 := by
      intro r hr
      rcases sharedHistory_mem a b rows r hr with ⟨hh, _⟩ | ⟨hh, _⟩
      · have hhb : r.homeTeam ≠ b := by rw [hh]; exact hab
        cases hbk : bucketOf a b r <;> simp [List.countP_cons, hh, hhb, hbk, hab]
      · have hha : r.homeTeam ≠ a := by rw [hh]; exact Ne.symm hab
        cases hbk : bucketOf a b r <;> simp [List.countP_cons, hh, hha, hbk, Ne.symm hab]
    have hp := partition_count
      ([fun r => r.homeTeam == a && bucketOf a b r == Bucket.AWins,
        fun r => r.homeTeam == a && bucketOf a b r == Bucket.BWins,
        fun r => r.homeTeam == a && bucketOf a b r == Bucket.Draw,
        fun r => r.homeTeam == b && bucketOf a b r == Bucket.AWins,
        fun r => r.homeTeam == b && bucketOf a b r == Bucket.BWins,
        fun r => r.homeTeam == b && bucketOf a b r == Bucket.Draw] :
          List (MatchRow → Bool)) (sharedHistory a b rows) hmem
    rw [flowTable, sum_filter_nze (fun e : String × Bucket × Nat => e.2.2)]
    simp only [List.map_cons, List.map_nil, List.sum_cons, List.sum_nil,
      Nat.add_zero] at hp ⊢
    simpa [flowCount] using hp

/-- Witness for C2: two shared matches, one hosted by each side. -/
theorem claim_C2_witness :
    (∀ e ∈ flowTable "A" "B" (sharedHistory "A" "B"
      [(⟨2, "A", "B", 1, 0, "T", some "A", some "B"⟩ : MatchRow),
       (⟨1, "B", "A", 1, 1, "T", none, none⟩ : MatchRow)]), e.2.2 ≠ 0) ∧
    (flowTable "A" "B" (sharedHistory "A" "B"
      [(⟨2, "A", "B", 1, 0, "T", some "A", some "B"⟩ : MatchRow),
       (⟨1, "B", "A", 1, 1, "T", none, none⟩ : MatchRow)])).length ≤ 6 ∧
    ((flowTable "A" "B" (sharedHistory "A" "B"
      [(⟨2, "A", "B", 1, 0, "T", some "A", some "B"⟩ : MatchRow),
       (⟨1, "B", "A", 1, 1, "T", none, none⟩ : MatchRow)])).map (fun e => e.2.2)).sum =
      (sharedHistory "A" "B"
        [(⟨2, "A", "B", 1, 0, "T", some "A", some "B"⟩ : MatchRow),
         (⟨1, "B", "A", 1, 1, "T", none, none⟩ : MatchRow)]).length :=
  claim_C2_flow_table "A" "B"
    [(⟨2, "A", "B", 1, 0, "T", some "A", some "B"⟩ : MatchRow),
     (⟨1, "B", "A", 1, 1, "T", none, none⟩ : MatchRow)] (by decide)

/-! ### Ranking lookup (`update_top_3_ranking`) -/

/-- One row of the FIFA-ranking table after load (app.py lines 38-43): rows
with unparseable dates are dropped, `year` is derived from `rank_date`. -/
structure RankingRow where
  rankDate : Nat
  year : Nat
  country : String
  rank : Nat
deriving DecidableEq, Repr

/-- `yearly_data = df_ranking[df_ranking['year'] == selected_year]`
(line 1163). -/
def yearRows (y : Nat) (tbl : List RankingRow) : List RankingRow :=
  tbl.filter (fun r => r.year == y)

/-- `latest_date_in_year = yearly_data['rank_date'].max()` (line 1168). -/
def latestDate (l : List RankingRow) : Nat :=
  (l.map (fun r => r.rankDate)).foldr max 0

/-- `latest_ranking_data_for_year` (line 1169): the rows carrying the most
recent ranking date within the year. -/
def latestRows (y : Nat) (tbl : List RankingRow) : List RankingRow :=
  (yearRows y tbl).filter (fun r => r.rankDate == latestDate (yearRows y tbl))

/-- rank order used by `sort_values(by='rank', ascending=True)` (line 1171). -/
def byRank (r s : RankingRow) : Prop := r.rank ≤ s.rank

instance : DecidableRel byRank :=
  fun r s => inferInstanceAs (Decidable (r.rank ≤ s.rank))

instance : IsTotal RankingRow byRank := ⟨fun r s => Nat.le_total r.rank s.rank⟩

instance : IsTrans RankingRow byRank := ⟨fun _ _ _ h1 h2 => Nat.le_trans h1 h2⟩

/-- `top_3_df = latest_ranking_data_for_year.sort_values(by='rank',
ascending=True).head(3)` (line 1171), generalised over the count `n`
(the callback instantiates `n = 3`). -/
def topNForYear (tbl : List RankingRow) (y n : Nat) : List RankingRow :=
  (List.insertionSort byRank (latestRows y tbl)).take n

/-- `selected_country_rank_info` (lines 1193-1208): the rank of a country on
the latest snapshot of the year; `none` is the "not ranked" marker shown when
the country is absent from that snapshot. -/
def rankOf (tbl : List RankingRow) (y : Nat) (c : String) : Option Nat :=
  ((latestRows y tbl).find? (fun r => r.country == c)).map (fun r => r.rank)

/-- C7: the top-N lookup keeps only rows of the requested year restricted to
the latest ranking date in that year, is sorted ascending by rank, and
returns at most `n` rows; a year with no ranking rows gives the empty list
and the `NotRanked` marker for every country, and a country absent from the
latest snapshot gets the `NotRanked` marker; the lookup is a total function
(it never raises). -/
theorem claim_C7_ranking_lookup (tbl : List RankingRow) (y n : Nat) (c : String) :
    (yearRows y tbl = [] → topNForYear tbl y n = [] ∧ rankOf tbl y c = none) ∧
    ((∀ r ∈ latestRows y tbl, r.country ≠ c) → rankOf tbl y c = none) ∧
    (∀ r ∈ topNForYear tbl y n, r.year = y ∧
      r.rankDate = latestDate (yearRows y tbl)) ∧
    (topNForYear tbl y n).length ≤ n ∧
    List.Sorted byRank (topNForYear tbl y n) := by
  refine ⟨?_, ?_, ?_, ?_, ?_⟩
  · intro h0
    constructor
    · simp [topNForYear, latestRows, h0, List.insertionSort]
    · simp [rankOf, latestRows, h0]
  · intro hall
    have : (latestRows y tbl).find? (fun r => r.country == c) = none := by
      rw [List.find?_eq_none]
      intro r hr
      simpa using hall r hr
    simp [rankOf, this]
  · intro r hr
    have hr1 : r ∈ List.insertionSort byRank (latestRows y tbl) :=
      List.take_subset n _ hr
    have hr2 : r ∈ latestRows y tbl :=
      (List.perm_insertionSort byRank (latestRows y tbl)).mem_iff.mp hr1
    have hr3 := List.mem_filter.mp hr2
    have hr4 := List.mem_filter.mp hr3.1
    constructor
    · simpa using hr4.2
    · simpa using hr3.2
  · simp [topNForYear, List.length_take]
  · exact List.Pairwise.sublist (List.take_sublist _ _)
      (List.sorted_insertionSort byRank (latestRows y tbl))

/-- Witness for C7: a concrete three-row table over one year, queried both
for an absent year and for a country missing from the latest snapshot. -/
theorem claim_C7_witness :
    (topNForYear
        [(⟨10, 2020, "A", 2⟩ : RankingRow), ⟨10, 2020, "B", 1⟩, ⟨5, 2020, "A", 1⟩]
        2019 3 = [] ∧
      rankOf [(⟨10, 2020, "A", 2⟩ : RankingRow), ⟨10, 2020, "B", 1⟩, ⟨5, 2020, "A", 1⟩]
        2019 "A" = none) ∧
    rankOf [(⟨10, 2020, "A", 2⟩ : RankingRow), ⟨10, 2020, "B", 1⟩, ⟨5, 2020, "A", 1⟩]
      2020 "C" = none :=
  ⟨(claim_C7_ranking_lookup
      [(⟨10, 2020, "A", 2⟩ : RankingRow), ⟨10, 2020, "B", 1⟩, ⟨5, 2020, "A", 1⟩]
      2019 3 "A").1 (by decide),
   (claim_C7_ranking_lookup
      [(⟨10, 2020, "A", 2⟩ : RankingRow), ⟨10, 2020, "B", 1⟩, ⟨5, 2020, "A", 1⟩]
      2020 3 "C").2.1 (by decide)⟩
